import Mathlib

/-!
Verification of the execution-polling, evaluation/notification and run-loop
core of the n8n agent scripts.  The Lean definitions below are a shallow
embedding of the Python sources:

  * `scripts/n8n_api_client.py`  — `N8nAPIClient.get_execution`,
    `N8nAPIClient.wait_for_execution`
  * `scripts/execute_trading_workflow.py` — `TradingWorkflowExecutor.get_execution_data`
  * `scripts/strategy_agent.py`  — the notification-evaluation loop of
    `run_once` and the `main` run loop
  * `scripts/strategy_agent_local.py` — `evaluate_and_notify` and `main`
  * `scripts/notify.py` — `notify_slack`, `notify_email`

Time is modelled with a fake clock: the wall clock advances only by the
explicit sleeps (`poll_interval` inside the poller, 1-second ticks in the run
loop), which is the deterministic-testing substitution the design itself
calls for.  Python exceptions are modelled with `Except`; numeric JSON values
are modelled as rationals.
-/

namespace N8nSpec

/-! ## Execution records (data model) -/

/-- Status strings of an n8n execution as observed by the client.  The code
compares the status field of the execution dict against the literals
success, error, crashed; anything else (including a missing field) is
non-terminal. -/
inductive ExecStatus where
  | queued
  | running
  | success
  | error
  | crashed
  | waiting
  deriving DecidableEq, Repr

/-- One result row of the output of an execution, as consumed by the
notification-evaluation loop of `strategy_agent.run_once`: a dict with
optional `score`, `confidence`, `strategy`, `symbol` keys.  Numeric values
are modelled as rationals. -/
structure ResultRow where
  score : Option ℚ
  confidence : Option ℚ
  strategy : Option String
  symbol : Option String
  deriving DecidableEq, Repr

/-- JSON-ish value stored under the `data` / `result` / `returnData` keys of
an execution record.  Only the shapes the scripts actually touch are
modelled; `rows` is a JSON array of result rows. -/
inductive PyVal where
  | num (q : ℚ)
  | str (s : String)
  | rows (rs : List ResultRow)
  deriving DecidableEq, Repr

/-- Python truthiness of an optional JSON value: `None`, `0`, the empty string and `[]`
are falsy, everything else modelled here is truthy. -/
def pyTruthy : Option PyVal → Bool
  | none => false
  | some (.num q) => decide (q ≠ 0)
  | some (.str s) => decide (s ≠ "")
  | some (.rows rs) => decide (rs ≠ [])

/-- Snapshot of an execution as returned by the gateway: a dict whose keys
may all be absent (`execution.get(...)` returns `None` for missing keys).
The empty dict `\x7b\x7d` is `emptyRecord` below. -/
structure ExecutionRecord where
  ident : Option String
  status : Option ExecStatus
  data : Option PyVal
  result : Option PyVal
  returnData : Option PyVal
  deriving DecidableEq, Repr

/-- The empty dict, which `get_execution` returns when the underlying HTTP
request raises. -/
def emptyRecord : ExecutionRecord := ⟨none, none, none, none, none⟩

/-- Transport / auth / HTTP failure raised by the HTTP layer
(`requests.RequestException` or the non-JSON `ValueError`). -/
structure GatewayError where
  msg : String
  deriving DecidableEq, Repr

/-- A gateway behaviour: the response of `GET /executions/:id` issued at
fake-clock time `t` — either an execution record or a raised transport
error. -/
def Gateway : Type := ℕ → Except GatewayError ExecutionRecord

/-! ## `N8nAPIClient.get_execution` and `wait_for_execution` -/

/-- Embedding of `N8nAPIClient.get_execution` (n8n_api_client.py lines
228-241): the request is wrapped in `try/except Exception`, and on any
failure the method logs and returns the empty dict. -/
def get_execution (gw : Gateway) (t : ℕ) : ExecutionRecord :=
  match gw t with
  | .ok r => r
  | .error _ => emptyRecord

/-- Modelled from the spec: a status query that propagates the gateway
failure to its caller as a `GatewayError` instead of swallowing it ("the
poller does not swallow it").  Used only for comparison with the
`get_execution` of the code. -/
def get_execution_propagating (gw : Gateway) (t : ℕ) : Except GatewayError ExecutionRecord :=
  gw t

/-- Status test for membership of the status in success, error, crashed from
`wait_for_execution`. -/
def isTerminal : Option ExecStatus → Bool
  | some .success => true
  | some .error => true
  | some .crashed => true
  | _ => false

/-- Outcome of a call to `wait_for_execution`:
`returned r` is a normal Python `return r`; `unboundLocal` is the
`UnboundLocalError` raised by the final `return execution` when the while
body never ran; `diverged` is fuel exhaustion of the model (only reachable
when `poll_interval = 0`, where the fake-clock loop never advances). -/
inductive PollOutcome where
  | returned (r : ExecutionRecord)
  | unboundLocal
  | diverged
  deriving DecidableEq, Repr

/-- One step of the `while time.time() - start_time < timeout` loop of
`wait_for_execution` (n8n_api_client.py lines 259-274).  `elapsed` is the
fake-clock time since `start_time`; `last` is the current value of the
Python local `execution` (`none` = never assigned); each iteration queries
the gateway, returns on terminal status, otherwise sleeps `poll`. -/
def waitLoop (gw : Gateway) (timeout : ℤ) (poll : ℕ) :
    ℕ → ℕ → Option ExecutionRecord → PollOutcome
  | 0, _, _ => .diverged
  | fuel + 1, elapsed, last =>
    if (elapsed : ℤ) < timeout then
      let e := get_execution gw elapsed
      if isTerminal e.status then .returned e
      else waitLoop gw timeout poll fuel (elapsed + poll) (some e)
    else
      match last with
      | some e => .returned e
      | none => .unboundLocal

/-- Embedding of `N8nAPIClient.wait_for_execution` (n8n_api_client.py lines
243-274).  `timeout.toNat + 1` units of fuel are sufficient for every
`poll ≥ 1` because elapsed time grows by at least 1 per iteration. -/
def wait_for_execution (gw : Gateway) (timeout : ℤ) (poll : ℕ) : PollOutcome :=
  waitLoop gw timeout poll (timeout.toNat + 1) 0 none

/-! ## `TradingWorkflowExecutor.get_execution_data` -/

/-- Embedding of `TradingWorkflowExecutor.get_execution_data`
(execute_trading_workflow.py lines 229-254): try `data`, then `result`,
then `returnData`, returning the first field whose value is truthy under
`if data:`-style tests, and `None` otherwise. -/
def get_execution_data (e : ExecutionRecord) : Option PyVal :=
  if pyTruthy e.data then e.data
  else if pyTruthy e.result then e.result
  else if pyTruthy e.returnData then e.returnData
  else none

/-- First truthy value in a list of optional values, `none` if there is
none.  Spec-level description of `get_execution_data` used to state its
behaviour without repeating its if-chain. -/
def firstTruthy : List (Option PyVal) → Option PyVal
  | [] => none
  | x :: rest => if pyTruthy x then x else firstTruthy rest

/-! ## Notification channels (`notify.py`) -/

/-- Outcome of one transport operation (HTTP post to the Slack webhook, SMTP
conversation): `.ok` on success, `.error` when the underlying library
raises. -/
structure SendError where
  msg : String
  deriving DecidableEq, Repr

/-- Environment of the notification helpers: the configured destinations
(absence = unset environment variable) and the behaviour of the two
transports on a given message. -/
structure ChannelEnv where
  slackWebhook : Option String
  emailTo : Option String
  smtpHost : Option String
  slackPost : String → Except SendError Unit
  emailSend : String → Except SendError Unit

/-- Embedding of `notify_slack` (notify.py lines 17-33): no webhook
configured means skip and return `False`; otherwise post once, catching any
transport exception and returning `False` on failure, `True` on success. -/
def notify_slack (env : ChannelEnv) (message : String) : Bool :=
  match env.slackWebhook with
  | none => false
  | some _ =>
    match env.slackPost message with
    | .ok _ => true
    | .error _ => false

/-- Embedding of `notify_email` (notify.py lines 36-72): no recipient means
skip and return `False`; with a recipient but no SMTP host the mail is only
logged and the function returns `True`; otherwise one SMTP send is
attempted, with any exception caught and turned into `False`. -/
def notify_email (env : ChannelEnv) (body : String) : Bool :=
  match env.emailTo with
  | none => false
  | some _ =>
    match env.smtpHost with
    | none => true
    | some _ =>
      match env.emailSend body with
      | .ok _ => true
      | .error _ => false

/-! ## Notification evaluation loop of `strategy_agent.run_once` -/

/-- Python truthiness of an optional numeric value (`None` and `0` are
falsy). -/
def truthyQ : Option ℚ → Bool
  | none => false
  | some q => decide (q ≠ 0)

/-- Python `a or b` on optional numeric values: `a` if truthy, else `b`. -/
def pyOr (a b : Option ℚ) : Option ℚ :=
  if truthyQ a then a else b

/-- Embedding of the Python assignment taking the score key or-else the
confidence key of the row dict
(strategy_agent.py line 116): the signal value the evaluator extracts from
a row. -/
def signalValue (row : ResultRow) : Option ℚ :=
  pyOr row.score row.confidence

/-- Modelled from the claim wording: extract the signal from `score`, using
`confidence` only when `score` is absent from the row.  Used only to compare
against the `signalValue` of the code. -/
def signalValueClaim (row : ResultRow) : Option ℚ :=
  match row.score with
  | some v => some v
  | none => row.confidence

/-- Embedding of `if score is not None and float(score) >= threshold`
(strategy_agent.py line 118): does the row trigger a notification? -/
def triggers (threshold : ℚ) (row : ResultRow) : Bool :=
  match signalValue row with
  | some v => decide (threshold ≤ v)
  | none => false

/-- Alert message built for a triggering row (strategy_agent.py lines
120-124); Python renders a missing key as the string `None`. -/
def rowMessage (row : ResultRow) : String :=
  "Strategy passed threshold: " ++ row.strategy.getD "None" ++ " for " ++ row.symbol.getD "None"

/-- One dispatch event of the evaluation loop: which channel helper was
called, for the row at which position, and the boolean it returned. -/
inductive NotifyEvent where
  | slackCall (idx : ℕ) (ok : Bool)
  | emailCall (idx : ℕ) (ok : Bool)
  deriving DecidableEq, Repr

/-- A dispatch attempt with its delivery outcome erased. -/
inductive Attempt where
  | slack (idx : ℕ)
  | email (idx : ℕ)
  deriving DecidableEq, Repr

/-- Outcome erasure on event lists. -/
def attemptsOf (evs : List NotifyEvent) : List Attempt :=
  evs.map fun ev =>
    match ev with
    | .slackCall i _ => .slack i
    | .emailCall i _ => .email i

/-- Embedding of the `for row in data:` notification loop of
`strategy_agent.run_once` (strategy_agent.py lines 112-129), recording the
dispatched notifications.  A triggering row calls `notify_slack` then
`notify_email`, each of which catches its own transport failures; a
non-triggering row (including a row lacking both `score` and `confidence`)
dispatches nothing.  `i` is the position of the first row of `rows` in the
full data list. -/
def run_once_notify (env : ChannelEnv) (threshold : ℚ) :
    ℕ → List ResultRow → List NotifyEvent
  | _, [] => []
  | i, row :: rest =>
    (if triggers threshold row then
      [.slackCall i (notify_slack env (rowMessage row)),
       .emailCall i (notify_email env (rowMessage row))]
    else []) ++ run_once_notify env threshold (i + 1) rest

/-- Modelled from the spec wording: each triggering row dispatches exactly
one alert through each configured channel, independent of delivery
outcomes.  The expected attempt list, with no dependence on the channel
environment. -/
def attemptsSpec (threshold : ℚ) : ℕ → List ResultRow → List Attempt
  | _, [] => []
  | i, row :: rest =>
    (if triggers threshold row then [Attempt.slack i, Attempt.email i] else []) ++
      attemptsSpec threshold (i + 1) rest

/-- Number of rows of the list that trigger at the given threshold. -/
def triggerCount (threshold : ℚ) (rows : List ResultRow) : ℕ :=
  (rows.filter fun row => triggers threshold row).length

/-! ## `strategy_agent_local.evaluate_and_notify` -/

/-- One strategy entry of the result dict of the local agent
(strategy_agent_local.py): a dict with optional `name`, `symbol`, `score`,
`signal`, `confidence` keys. -/
structure StrategyRow where
  name : Option String
  symbol : Option String
  score : Option ℚ
  signal : Option String
  confidence : Option ℚ
  deriving DecidableEq, Repr

/-- Embedding of the score lookup with default 0
(strategy_agent_local.py line 91): the score with default `0`; the local
evaluator never consults `confidence`. -/
def localScore (s : StrategyRow) : ℚ :=
  s.score.getD 0

/-- The for-loop over the strategies list of the result dict inside
`evaluate_and_notify` (strategy_agent_local.py lines 90-106), recording
dispatch events: a row with `score >= threshold` dispatches `notify_slack`
then `notify_email` inside one `try` block (both helpers catch their own
transport failures). -/
def evaluate_and_notify_loop (env : ChannelEnv) (threshold : ℚ) :
    ℕ → List StrategyRow → List NotifyEvent
  | _, [] => []
  | i, s :: rest =>
    (if threshold ≤ localScore s then
      [NotifyEvent.slackCall i (notify_slack env (s.name.getD "Unknown")),
       NotifyEvent.emailCall i (notify_email env (s.name.getD "Unknown"))]
    else []) ++ evaluate_and_notify_loop env threshold (i + 1) rest

/-- Embedding of `evaluate_and_notify` (strategy_agent_local.py lines
86-106).  The function body has no `return` statement, so the Python return
value is `None`: the second component models the returned value, with
`some n` standing for returning the integer `n` and `none` for returning
`None`. -/
def evaluate_and_notify (env : ChannelEnv) (threshold : ℚ)
    (strategies : List StrategyRow) : List NotifyEvent × Option ℕ :=
  (evaluate_and_notify_loop env threshold 0 strategies, none)

/-- Number of strategy rows whose (defaulted) score reaches the
threshold. -/
def localTriggerCount (threshold : ℚ) (strategies : List StrategyRow) : ℕ :=
  (strategies.filter fun s => decide (threshold ≤ localScore s)).length

/-- The three strategies produced by `generate_strategy_result`
(strategy_agent_local.py lines 39-66): scores 0.82, 0.71, 0.68. -/
def sampleStrategies : List StrategyRow :=
  [⟨some "Mean Reversion", some "BTC/USDT", some (82/100), some "BUY", some (78/100)⟩,
   ⟨some "Momentum", some "ETH/USDT", some (71/100), some "HOLD", some (65/100)⟩,
   ⟨some "RSI Divergence", some "XRP/USDT", some (68/100), some "SELL", some (70/100)⟩]

/-! ## The agent run loop (`strategy_agent.main`, lines 156-168) -/

/-- A Python exception escaping `run_once` (caught by the
`except Exception`). -/
structure PyExc where
  msg : String
  deriving DecidableEq, Repr

/-- Embedding of the inner sleep loop
`slept = 0; while slept < interval and not STOP: time.sleep(1); slept += 1`.
`stop` is the value of the `STOP` flag as a function of fake-clock time (one
tick = one second); `t` is the current time, the second argument the
remaining ticks (`interval - slept`).  Returns the number of ticks actually
slept; the flag is re-checked before every tick. -/
def sleepLoop (stop : ℕ → Bool) : ℕ → ℕ → ℕ
  | _, 0 => 0
  | t, n + 1 => if stop t then 0 else sleepLoop stop (t + 1) n + 1

/-- Observable event of one run-loop iteration. -/
inductive LoopEvent where
  | cycle (n : ℕ) (r : Except PyExc Bool)
  | sleep (ticks : ℕ)
  | stopped
  deriving Repr

/-- A loop event with the cycle outcome erased. -/
inductive LoopStep where
  | ranCycle (n : ℕ)
  | slept (ticks : ℕ)
  | stopped
  deriving DecidableEq, Repr

/-- Outcome erasure on loop traces. -/
def loopShape (evs : List LoopEvent) : List LoopStep :=
  evs.map fun ev =>
    match ev with
    | .cycle n _ => .ranCycle n
    | .sleep k => .slept k
    | .stopped => .stopped

/-- Embedding of the run loop of `strategy_agent.main`:

`while not STOP: try: run_once(...) except Exception: log; then the sleep
loop`.  `cycles n` is the outcome of the `n`-th call to `run_once` (a
normal boolean return or a raised exception); the `try/except` discards it
either way.  Cycles are instantaneous on the fake clock; only sleep ticks
advance time.  `fuel` bounds the number of iterations modelled (the Python
loop is unbounded); an empty trace tail means fuel ran out, `.stopped` means
the `while not STOP` test observed the flag. -/
def agentLoop (cycles : ℕ → Except PyExc Bool) (stop : ℕ → Bool) (interval : ℕ) :
    ℕ → ℕ → ℕ → List LoopEvent
  | 0, _, _ => []
  | fuel + 1, n, t =>
    if stop t then [.stopped]
    else
      let k := sleepLoop stop t interval
      .cycle n (cycles n) :: .sleep k :: agentLoop cycles stop interval fuel (n + 1) (t + k)

/-! ## Concrete fixtures used by witnesses and counterexamples -/

/-- A gateway whose every request raises a transport error. -/
def badGw : Gateway := fun _ => .error ⟨"connection refused"⟩

/-- A record of a still-running execution. -/
def runningRec : ExecutionRecord := ⟨some "42", some .running, none, none, none⟩

/-- A gateway that always reports the execution as running. -/
def runningGw : Gateway := fun _ => .ok runningRec

/-- A row whose `score` key is present but `0`, with a high `confidence`. -/
def zeroScoreRow : ResultRow := ⟨some 0, some (9/10), none, none⟩

/-- The row sequence of the spec scenario: scores 0.82 and 0.71, then a row
carrying only `confidence` 0.70. -/
def scenarioRows : List ResultRow :=
  [⟨some (82/100), none, some "mean_reversion", some "BTC_USDT"⟩,
   ⟨some (71/100), none, some "momentum", some "ETH_USDT"⟩,
   ⟨none, some (70/100), some "rsi_divergence", some "XRP_USDT"⟩]

/-- A channel environment with nothing configured and perfect transports. -/
def pureEnv : ChannelEnv := ⟨none, none, none, fun _ => .ok (), fun _ => .ok ()⟩

/-- A fully configured channel environment whose Slack transport fails and
whose SMTP transport succeeds. -/
def slackFailEnv : ChannelEnv :=
  ⟨some "https://hooks.example/x", some "ops@example.com", some "smtp.example.com",
   fun _ => .error ⟨"http 500"⟩, fun _ => .ok ()⟩

/-! ## Helper lemmas about the poller loop -/

/-- Unfolding of one step of `waitLoop`. -/
lemma waitLoop_succ (gw : Gateway) (timeout : ℤ) (poll fuel elapsed : ℕ)
    (last : Option ExecutionRecord) :
    waitLoop gw timeout poll (fuel + 1) elapsed last =
      if (elapsed : ℤ) < timeout then
        if isTerminal (get_execution gw elapsed).status then
          .returned (get_execution gw elapsed)
        else waitLoop gw timeout poll fuel (elapsed + poll) (some (get_execution gw elapsed))
      else
        match last with
        | some e => .returned e
        | none => .unboundLocal := rfl

/-- If every record observed before the deadline is non-terminal, the loop
returns the record observed at the last poll time: the unique poll time `T`
with `T < timeout ≤ T + poll`. -/
lemma waitLoop_nonterminal_returns_last (gw : Gateway) (timeout : ℤ) (poll : ℕ)
    (hp : 1 ≤ poll)
    (hnt : ∀ t : ℕ, (t : ℤ) < timeout → isTerminal (get_execution gw t).status = false) :
    ∀ fuel elapsed last, timeout.toNat - elapsed < fuel → (elapsed : ℤ) < timeout →
      ∃ T : ℕ, elapsed ≤ T ∧ (T : ℤ) < timeout ∧ timeout ≤ (T : ℤ) + poll ∧
        waitLoop gw timeout poll fuel elapsed last = .returned (get_execution gw T) := by
  intro fuel
  induction fuel with
  | zero => intro elapsed last hfuel helapsed; omega
  | succ f ih =>
    intro elapsed last hfuel helapsed
    rw [waitLoop_succ, if_pos helapsed, hnt elapsed helapsed]
    simp only [Bool.false_eq_true, if_false]
    by_cases hnext : ((elapsed + poll : ℕ) : ℤ) < timeout
    · obtain ⟨T, hT0, hT1, hT2, hT3⟩ :=
        ih (elapsed + poll) (some (get_execution gw elapsed)) (by omega) hnext
      exact ⟨T, by omega, hT1, hT2, hT3⟩
    · have hf : 1 ≤ f := by omega
      obtain ⟨f2, rfl⟩ : ∃ f2, f = f2 + 1 := ⟨f - 1, by omega⟩
      rw [waitLoop_succ, if_neg hnext]
      exact ⟨elapsed, le_refl _, helapsed, by omega, rfl⟩

/-- With a positive poll interval, once the deadline check has passed at
least once (or a record was already observed), the loop ends in a normal
`return`. -/
lemma waitLoop_returns (gw : Gateway) (timeout : ℤ) (poll : ℕ) (hp : 1 ≤ poll) :
    ∀ fuel elapsed last, timeout.toNat - elapsed < fuel →
      ((elapsed : ℤ) < timeout ∨ last.isSome) →
      ∃ r, waitLoop gw timeout poll fuel elapsed last = .returned r := by
  intro fuel
  induction fuel with
  | zero => intro elapsed last hfuel _; omega
  | succ f ih =>
    intro elapsed last hfuel hstart
    rw [waitLoop_succ]
    by_cases helapsed : (elapsed : ℤ) < timeout
    · rw [if_pos helapsed]
      by_cases hterm : isTerminal (get_execution gw elapsed).status
      · exact ⟨get_execution gw elapsed, by rw [if_pos hterm]⟩
      · rw [if_neg hterm]
        exact ih (elapsed + poll) (some (get_execution gw elapsed)) (by omega) (Or.inr rfl)
    · rw [if_neg helapsed]
      obtain ⟨e, he⟩ := Option.isSome_iff_exists.mp (hstart.resolve_left helapsed)
      exact ⟨e, by rw [he]⟩

/-! ## Claim theorems -/

/-- C1: For every execution whose status never becomes terminal within the
timeout, `wait_for_execution` performs a normal return (it does not raise)
of the record observed at the last poll time `T` — the unique poll instant
with `T < timeout ≤ T + poll` — and that record is non-terminal, so callers
distinguish timeout from completion by its `status` field. -/
theorem wait_for_execution_soft_timeout (gw : Gateway) (timeout : ℤ) (poll : ℕ)
    (hp : 1 ≤ poll) (ht : 0 < timeout)
    (hnt : ∀ t : ℕ, (t : ℤ) < timeout → isTerminal (get_execution gw t).status = false) :
    ∃ T : ℕ, (T : ℤ) < timeout ∧ timeout ≤ (T : ℤ) + poll ∧
      wait_for_execution gw timeout poll = .returned (get_execution gw T) ∧
      isTerminal (get_execution gw T).status = false := by
  obtain ⟨T, _, hT1, hT2, hT3⟩ :=
    waitLoop_nonterminal_returns_last gw timeout poll hp hnt (timeout.toNat + 1) 0 none
      (by omega) (by omega)
  exact ⟨T, hT1, hT2, hT3, hnt T hT1⟩

/-- Witness for C1: a gateway that always reports `running`, polled with
timeout 3 and interval 2, ends in a soft timeout. -/
theorem wait_for_execution_soft_timeout_witness :
    ∃ T : ℕ, (T : ℤ) < 3 ∧ (3 : ℤ) ≤ (T : ℤ) + 2 ∧
      wait_for_execution runningGw 3 2 = .returned (get_execution runningGw T) ∧
      isTerminal (get_execution runningGw T).status = false :=
  wait_for_execution_soft_timeout runningGw 3 2 (by decide) (by decide) (fun t _ => rfl)

/-- C2 counterexample: at a gateway that raises a transport error on every
status query, `get_execution` returns the empty dict instead of propagating
(contrast `get_execution_propagating`, the behaviour the claim asserts), and
`wait_for_execution` with timeout 2 and interval 1 completes with a normal
return of the empty record — the failure never reaches the caller. -/
theorem get_execution_swallows_cex :
    badGw 0 = .error ⟨"connection refused"⟩ ∧
    get_execution_propagating badGw 0 = .error ⟨"connection refused"⟩ ∧
    get_execution badGw 0 = emptyRecord ∧
    wait_for_execution badGw 2 1 = .returned emptyRecord :=
  ⟨rfl, rfl, rfl, rfl⟩

/-- C2 amended: a transport/auth/HTTP failure during a status query is
caught inside `get_execution`, which returns the empty dict; the poller
therefore never observes a `GatewayError`: against a gateway failing on
every query it polls the empty (non-terminal) record until the timeout and
returns it normally. -/
theorem get_execution_catches_gateway_errors (gw : Gateway) (timeout : ℤ) (poll : ℕ)
    (hp : 1 ≤ poll) (ht : 0 < timeout)
    (hbad : ∀ t : ℕ, ∃ e, gw t = .error e) :
    (∀ (t : ℕ) (e : GatewayError), gw t = .error e → get_execution gw t = emptyRecord) ∧
    wait_for_execution gw timeout poll = .returned emptyRecord := by
  have hswallow : ∀ (t : ℕ) (e : GatewayError), gw t = .error e →
      get_execution gw t = emptyRecord := by
    intro t e he
    unfold get_execution
    rw [he]
  have hempty : ∀ t : ℕ, get_execution gw t = emptyRecord := by
    intro t
    obtain ⟨e, he⟩ := hbad t
    exact hswallow t e he
  have hnt : ∀ t : ℕ, (t : ℤ) < timeout → isTerminal (get_execution gw t).status = false := by
    intro t _
    rw [hempty t]
    rfl
  obtain ⟨T, _, _, hret, _⟩ := wait_for_execution_soft_timeout gw timeout poll hp ht hnt
  exact ⟨hswallow, by rw [hret, hempty T]⟩

/-- Witness for C2 amended: the always-failing gateway with timeout 2 and
interval 1. -/
theorem get_execution_catches_gateway_errors_witness :
    wait_for_execution badGw 2 1 = .returned emptyRecord ∧
    get_execution badGw 5 = emptyRecord := by
  have h := get_execution_catches_gateway_errors badGw 2 1 (by decide) (by decide)
    (fun t => ⟨⟨"connection refused"⟩, rfl⟩)
  exact ⟨h.2, h.1 5 ⟨"connection refused"⟩ rfl⟩

/-- C9: with `timeout ≤ 0` the while body of `wait_for_execution` never
runs, the local `execution` is never assigned and the final
`return execution` raises `UnboundLocalError`; with `timeout > 0` (and a
positive poll interval) the call always performs a normal return, so
`timeout > 0` is a genuine precondition. -/
theorem wait_for_execution_unbound_local (gw : Gateway) (timeout : ℤ) (poll : ℕ) :
    (timeout ≤ 0 → wait_for_execution gw timeout poll = .unboundLocal) ∧
    (0 < timeout → 1 ≤ poll → ∃ r, wait_for_execution gw timeout poll = .returned r) := by
  constructor
  · intro hle
    unfold wait_for_execution
    have htn : timeout.toNat = 0 := Int.toNat_of_nonpos hle
    rw [htn, waitLoop_succ, if_neg (by omega)]
  · intro ht hp
    exact waitLoop_returns gw timeout poll hp (timeout.toNat + 1) 0 none (by omega)
      (Or.inl (by omega))

/-- Witness for C9: a healthy gateway polled with `timeout = 0` hits the
unbound-local path; the same gateway with `timeout = 3` returns normally. -/
theorem wait_for_execution_unbound_local_witness :
    wait_for_execution runningGw 0 2 = .unboundLocal ∧
    ∃ r, wait_for_execution runningGw 3 2 = .returned r :=
  ⟨(wait_for_execution_unbound_local runningGw 0 2).1 (by decide),
   (wait_for_execution_unbound_local runningGw 3 2).2 (by decide) (by decide)⟩

/-- C3 counterexample: a row whose `score` key is present with value `0`
and whose `confidence` is `0.9`.  The claim (`signalValueClaim`) extracts
the present `score`, namely `0`; the code (`signalValue`) falls back to
`confidence` because Python `or` tests truthiness and `0` is falsy — the row
even triggers at threshold `0.75`. -/
theorem signalValue_zero_score_cex :
    zeroScoreRow.score = some 0 ∧
    signalValueClaim zeroScoreRow = some 0 ∧
    signalValue zeroScoreRow = some (9 / 10) ∧
    signalValue zeroScoreRow ≠ signalValueClaim zeroScoreRow ∧
    triggers (3 / 4) zeroScoreRow = true := by
  refine ⟨rfl, rfl, ?_, ?_, ?_⟩ <;>
    norm_num [zeroScoreRow, signalValue, signalValueClaim, pyOr, truthyQ, triggers]

/-- C3 amended: the evaluator extracts the signal from `score` when `score`
is present and nonzero; it falls back to `confidence` when `score` is
absent or equal to `0` (Python truthiness of the `or`); a row lacking both
keys yields no signal, never triggers at any threshold, and is skipped by
the notification loop without dispatching anything (and, the embedding
being total, without raising). -/
theorem signalValue_fallback_semantics (row : ResultRow) :
    (∀ v : ℚ, row.score = some v → v ≠ 0 → signalValue row = some v) ∧
    (row.score = none ∨ row.score = some 0 → signalValue row = row.confidence) ∧
    (row.score = none → row.confidence = none →
      signalValue row = none ∧ (∀ t : ℚ, triggers t row = false) ∧
      (∀ (env : ChannelEnv) (th : ℚ) (i : ℕ) (rest : List ResultRow),
        run_once_notify env th i (row :: rest) = run_once_notify env th (i + 1) rest)) := by
  refine ⟨?_, ?_, ?_⟩
  · intro v hv hvne
    simp [signalValue, pyOr, truthyQ, hv, hvne]
  · intro hsc
    rcases hsc with h | h <;> simp [signalValue, pyOr, truthyQ, h]
  · intro hs hc
    have hsig : signalValue row = none := by simp [signalValue, pyOr, truthyQ, hs, hc]
    have htrig : ∀ t : ℚ, triggers t row = false := by
      intro t
      simp [triggers, hsig]
    refine ⟨hsig, htrig, ?_⟩
    intro env th i rest
    simp [run_once_notify, htrig th]

/-- Witness for C3 amended: the empty row has no signal, does not trigger
and dispatches nothing. -/
theorem signalValue_fallback_semantics_witness :
    signalValue ⟨none, none, none, none⟩ = none ∧
    triggers (3 / 4) ⟨none, none, none, none⟩ = false ∧
    run_once_notify pureEnv (3 / 4) 0 [⟨none, none, none, none⟩] =
      run_once_notify pureEnv (3 / 4) 1 [] := by
  have h := (signalValue_fallback_semantics ⟨none, none, none, none⟩).2.2 rfl rfl
  exact ⟨h.1, h.2.1 (3 / 4), h.2.2 pureEnv (3 / 4) 0 []⟩

/-- C4: for any row from which the evaluator extracts a numeric signal `v`,
the row triggers iff `v ≥ threshold`, with the boundary `v = threshold`
triggering; on the scenario rows (scores 0.82 and 0.71, confidence-only
0.70) at threshold 0.75, exactly the first row triggers. -/
theorem triggers_iff_threshold (row : ResultRow) (threshold v : ℚ)
    (hv : signalValue row = some v) :
    (triggers threshold row = true ↔ threshold ≤ v) ∧
    triggers v row = true ∧
    scenarioRows.map (fun r => triggers (3 / 4) r) = [true, false, false] ∧
    triggerCount (3 / 4) scenarioRows = 1 := by
  refine ⟨?_, ?_, ?_, ?_⟩
  · simp [triggers, hv]
  · simp [triggers, hv]
  · norm_num [scenarioRows, triggers, signalValue, pyOr, truthyQ]
  · norm_num [triggerCount, scenarioRows, triggers, signalValue, pyOr, truthyQ, List.filter]

/-- Witness for C4: the 0.82-score scenario row triggers at threshold 0.75
and at its own value. -/
theorem triggers_iff_threshold_witness :
    (triggers (3 / 4) ⟨some (82 / 100), none, some "mean_reversion", some "BTC_USDT"⟩ = true ↔
      (3 / 4 : ℚ) ≤ 82 / 100) ∧
    triggers (82 / 100) ⟨some (82 / 100), none, some "mean_reversion", some "BTC_USDT"⟩ = true := by
  have h := triggers_iff_threshold
    ⟨some (82 / 100), none, some "mean_reversion", some "BTC_USDT"⟩ (3 / 4) (82 / 100)
    (by norm_num [signalValue, pyOr, truthyQ])
  exact ⟨h.1, h.2.1⟩

/-- C10: `get_execution_data` returns the first truthy value among the
`data`, `result` and `returnData` fields and otherwise `None`; hence an
execution whose `data` is the empty list (and which carries no other output
field) yields `None`, indistinguishable from an execution carrying no
output at all. -/
theorem get_execution_data_first_truthy :
    (∀ e : ExecutionRecord, get_execution_data e = firstTruthy [e.data, e.result, e.returnData]) ∧
    (∀ (ident : Option String) (st : Option ExecStatus),
      get_execution_data ⟨ident, st, some (.rows []), none, none⟩ = none ∧
      get_execution_data ⟨ident, st, some (.rows []), none, none⟩ =
        get_execution_data ⟨ident, st, none, none, none⟩) :=
  ⟨fun _ => rfl, fun _ _ => ⟨rfl, rfl⟩⟩

/-- Dispatch attempts of the `run_once` evaluation loop match the expected
per-row attempt list, whatever the channel environment. -/
lemma run_once_notify_attempts (env : ChannelEnv) (threshold : ℚ) :
    ∀ (i : ℕ) (rows : List ResultRow),
      attemptsOf (run_once_notify env threshold i rows) = attemptsSpec threshold i rows := by
  intro i rows
  induction rows generalizing i with
  | nil => rfl
  | cons row rest ih =>
    have hrec := ih (i + 1)
    simp only [attemptsOf] at hrec
    by_cases h : triggers threshold row = true <;>
      simp [run_once_notify, attemptsSpec, attemptsOf, h, hrec]

/-- The evaluation loop emits exactly two events (one per channel) for each
triggering row. -/
lemma run_once_notify_length (env : ChannelEnv) (threshold : ℚ) :
    ∀ (i : ℕ) (rows : List ResultRow),
      (run_once_notify env threshold i rows).length = 2 * triggerCount threshold rows := by
  intro i rows
  induction rows generalizing i with
  | nil => rfl
  | cons row rest ih =>
    have hrec := ih (i + 1)
    by_cases h : triggers threshold row = true <;>
      simp [run_once_notify, triggerCount, List.filter_cons, h] at hrec ⊢ <;>
      omega

/-- C6: the attempts dispatched by the evaluation loop are exactly one
Slack call and one email call per triggering row (`attemptsSpec`), they are
identical under any two channel environments — so one channel failing
neither suppresses the other channel for that row nor later rows — and
their number is twice the triggering-row count.  Concretely, on the
scenario rows with a failing Slack transport, the Slack call returns
`false` and the email call for the same row is still made and succeeds. -/
theorem run_once_notify_channel_independence (env env2 : ChannelEnv) (threshold : ℚ)
    (i : ℕ) (rows : List ResultRow) :
    attemptsOf (run_once_notify env threshold i rows) = attemptsSpec threshold i rows ∧
    attemptsOf (run_once_notify env threshold i rows) =
      attemptsOf (run_once_notify env2 threshold i rows) ∧
    (run_once_notify env threshold i rows).length = 2 * triggerCount threshold rows ∧
    run_once_notify slackFailEnv (3 / 4) 0 scenarioRows =
      [.slackCall 0 false, .emailCall 0 true] := by
  refine ⟨run_once_notify_attempts env threshold i rows, ?_,
    run_once_notify_length env threshold i rows, ?_⟩
  · rw [run_once_notify_attempts env threshold i rows,
      run_once_notify_attempts env2 threshold i rows]
  · norm_num [run_once_notify, scenarioRows, triggers, signalValue, pyOr, truthyQ,
      notify_slack, notify_email, slackFailEnv]

/-- Attempt lists of the local evaluator are independent of the channel
environment. -/
lemma evaluate_and_notify_loop_env (env env2 : ChannelEnv) (threshold : ℚ) :
    ∀ (i : ℕ) (strategies : List StrategyRow),
      attemptsOf (evaluate_and_notify_loop env threshold i strategies) =
        attemptsOf (evaluate_and_notify_loop env2 threshold i strategies) := by
  intro i strategies
  induction strategies generalizing i with
  | nil => rfl
  | cons s rest ih =>
    have hrec := ih (i + 1)
    simp only [attemptsOf] at hrec
    by_cases h : threshold ≤ localScore s <;>
      simp [evaluate_and_notify_loop, attemptsOf, h, hrec]

/-- The local evaluator emits exactly two events per triggering strategy
row. -/
lemma evaluate_and_notify_loop_length (env : ChannelEnv) (threshold : ℚ) :
    ∀ (i : ℕ) (strategies : List StrategyRow),
      (evaluate_and_notify_loop env threshold i strategies).length =
        2 * localTriggerCount threshold strategies := by
  intro i strategies
  induction strategies generalizing i with
  | nil => rfl
  | cons s rest ih =>
    have hrec := ih (i + 1)
    by_cases h : threshold ≤ localScore s <;>
      simp [evaluate_and_notify_loop, localTriggerCount, List.filter_cons, h] at hrec ⊢ <;>
      omega

/-- C5 counterexample: on the generated sample strategies at threshold 0.75
exactly one row triggers, yet `evaluate_and_notify` returns `None` — not
the count `1` the claim asserts. -/
theorem evaluate_and_notify_returns_none_cex :
    localTriggerCount (3 / 4) sampleStrategies = 1 ∧
    (evaluate_and_notify pureEnv (3 / 4) sampleStrategies).2 = none ∧
    (evaluate_and_notify pureEnv (3 / 4) sampleStrategies).2 ≠
      some (localTriggerCount (3 / 4) sampleStrategies) := by
  refine ⟨?_, rfl, ?_⟩
  · norm_num [localTriggerCount, sampleStrategies, localScore, List.filter]
  · simp [evaluate_and_notify]

/-- C5 amended: `evaluate_and_notify` always returns `None` (the count of
triggering rows is not returned); which rows dispatch notifications — and
hence how many — is determined by scores and threshold alone: delivery
success or failure on a channel changes neither the attempt list nor its
length, which is twice the triggering-row count. -/
theorem evaluate_and_notify_no_count (env env2 : ChannelEnv) (threshold : ℚ)
    (strategies : List StrategyRow) :
    (evaluate_and_notify env threshold strategies).2 = none ∧
    attemptsOf (evaluate_and_notify env threshold strategies).1 =
      attemptsOf (evaluate_and_notify env2 threshold strategies).1 ∧
    (evaluate_and_notify env threshold strategies).1.length =
      2 * localTriggerCount threshold strategies :=
  ⟨rfl, evaluate_and_notify_loop_env env env2 threshold 0 strategies,
   evaluate_and_notify_loop_length env threshold 0 strategies⟩

/-- Unfolding of one iteration of the run loop. -/
lemma agentLoop_succ (cycles : ℕ → Except PyExc Bool) (stop : ℕ → Bool)
    (interval fuel n t : ℕ) :
    agentLoop cycles stop interval (fuel + 1) n t =
      if stop t then [.stopped]
      else
        .cycle n (cycles n) :: .sleep (sleepLoop stop t interval) ::
          agentLoop cycles stop interval fuel (n + 1) (t + sleepLoop stop t interval) := rfl

/-- The shape of the run-loop trace — which cycles run, how long each sleep
lasts, when the loop stops — does not depend on the cycle outcomes. -/
lemma agentLoop_shape_independent (cycles cycles2 : ℕ → Except PyExc Bool)
    (stop : ℕ → Bool) (interval : ℕ) :
    ∀ fuel n t, loopShape (agentLoop cycles stop interval fuel n t) =
      loopShape (agentLoop cycles2 stop interval fuel n t) := by
  intro fuel
  induction fuel with
  | zero => intro n t; rfl
  | succ f ih =>
    intro n t
    by_cases h : stop t = true
    · simp [agentLoop_succ, h, loopShape]
    · simp only [agentLoop_succ, h, if_false, Bool.false_eq_true, loopShape, List.map_cons]
      simpa [loopShape] using ih (n + 1) (t + sleepLoop stop t interval)

/-- Every cycle event of the run-loop trace is immediately followed by a
sleep event: the loop always proceeds to SLEEPING, whatever the cycle
outcome. -/
lemma agentLoop_cycle_then_sleep (cycles : ℕ → Except PyExc Bool) (stop : ℕ → Bool)
    (interval : ℕ) :
    ∀ fuel n t (i m : ℕ) (r : Except PyExc Bool),
      (agentLoop cycles stop interval fuel n t)[i]? = some (.cycle m r) →
      ∃ k, (agentLoop cycles stop interval fuel n t)[i + 1]? = some (.sleep k) := by
  intro fuel
  induction fuel with
  | zero => intro n t i m r h; simp [agentLoop] at h
  | succ f ih =>
    intro n t i m r h
    by_cases hs : stop t = true
    · rw [agentLoop_succ, if_pos hs] at h ⊢
      match i with
      | 0 => simp at h
      | i + 1 => simp at h
    · rw [agentLoop_succ, if_neg hs] at h ⊢
      match i with
      | 0 => exact ⟨sleepLoop stop t interval, by simp⟩
      | 1 => simp at h
      | i + 2 =>
        simp only [List.getElem?_cons_succ] at h ⊢
        exact ih (n + 1) (t + sleepLoop stop t interval) i m r h

/-- C7: the run loop of `main` is exception-resilient: its trace has the
same shape whatever the cycle outcomes — replacing any raised exceptions by
normal returns changes neither which cycles run nor when the loop sleeps or
stops — and every cycle, failed or not, is immediately followed by the
sleep phase; the loop terminates only through the stop flag (or the fuel
bound of the model), never through a cycle exception. -/
theorem agentLoop_exception_resilient (cycles cycles2 : ℕ → Except PyExc Bool)
    (stop : ℕ → Bool) (interval fuel n t : ℕ) :
    loopShape (agentLoop cycles stop interval fuel n t) =
      loopShape (agentLoop cycles2 stop interval fuel n t) ∧
    ∀ (i m : ℕ) (r : Except PyExc Bool),
      (agentLoop cycles stop interval fuel n t)[i]? = some (.cycle m r) →
      ∃ k, (agentLoop cycles stop interval fuel n t)[i + 1]? = some (.sleep k) :=
  ⟨agentLoop_shape_independent cycles cycles2 stop interval fuel n t,
   agentLoop_cycle_then_sleep cycles stop interval fuel n t⟩

/-- Witness for C7: a loop whose every cycle raises still sleeps after each
cycle and runs the next cycle. -/
theorem agentLoop_exception_resilient_witness :
    ∃ k, (agentLoop (fun _ => .error ⟨"boom"⟩) (fun u => decide (2 ≤ u)) 1 2 0 0)[1]? =
      some (.sleep k) :=
  (agentLoop_exception_resilient (fun _ => .error ⟨"boom"⟩) (fun _ => .ok true)
    (fun u => decide (2 ≤ u)) 1 2 0 0).2 0 0 (.error ⟨"boom"⟩) rfl

/-- Once the stop flag is set at time `T`, a sleep phase started at `t0`
sleeps at most `T + 1 - t0` ticks. -/
lemma sleepLoop_le (stop : ℕ → Bool)
    (hmono : ∀ s t, s ≤ t → stop s = true → stop t = true)
    (T : ℕ) (hT : stop T = true) :
    ∀ (n t0 : ℕ), sleepLoop stop t0 n ≤ T + 1 - t0 := by
  intro n
  induction n with
  | zero => intro t0; simp [sleepLoop]
  | succ m ih =>
    intro t0
    by_cases hst : stop t0 = true
    · simp [sleepLoop, hst]
    · have ht0 : t0 < T := by
        by_contra hc
        exact hst (hmono T t0 (by omega) hT)
      have := ih (t0 + 1)
      simp only [sleepLoop, hst, if_false, Bool.false_eq_true]
      omega

/-- Once the stop flag is set at time `T` and the sleep phase cannot outlast
it, the flag is observed true at the moment the sleep phase ends. -/
lemma sleepLoop_exit_stopped (stop : ℕ → Bool)
    (hmono : ∀ s t, s ≤ t → stop s = true → stop t = true)
    (T : ℕ) (hT : stop T = true) :
    ∀ (n t0 : ℕ), T < t0 + n → stop (t0 + sleepLoop stop t0 n) = true := by
  intro n
  induction n with
  | zero =>
    intro t0 hlt
    simpa [sleepLoop] using hmono T t0 (by omega) hT
  | succ m ih =>
    intro t0 hlt
    by_cases hst : stop t0 = true
    · simp [sleepLoop, hst]
    · have := ih (t0 + 1) (by omega)
      simp only [sleepLoop, hst, if_false, Bool.false_eq_true]
      have harith : t0 + (sleepLoop stop (t0 + 1) m + 1) = (t0 + 1) + sleepLoop stop (t0 + 1) m := by
        omega
      rw [harith]
      exact this

/-- C8: the sleep phase checks the (monotone, set-once) stop flag before
every 1-second tick; if the flag is set at time `T` while a sleep phase
begun at `t0 ≤ T` is in progress (`T < t0 + interval`), the phase ends by
time `T + 1` — at most one extra tick — the flag is observed at the exit,
and the loop immediately stops without running any further cycle. -/
theorem runloop_stop_within_one_tick (stop : ℕ → Bool) (T t0 interval : ℕ)
    (hmono : ∀ s t, s ≤ t → stop s = true → stop t = true)
    (hT : stop T = true) (hstart : t0 ≤ T) (hmid : T < t0 + interval) :
    t0 + sleepLoop stop t0 interval ≤ T + 1 ∧
    stop (t0 + sleepLoop stop t0 interval) = true ∧
    ∀ (cycles : ℕ → Except PyExc Bool) (fuel n : ℕ),
      agentLoop cycles stop interval (fuel + 1) n (t0 + sleepLoop stop t0 interval) =
        [.stopped] := by
  have hle := sleepLoop_le stop hmono T hT interval t0
  have hexit := sleepLoop_exit_stopped stop hmono T hT interval t0 hmid
  refine ⟨by omega, hexit, ?_⟩
  intro cycles fuel n
  rw [agentLoop_succ, if_pos hexit]

/-- Witness for C8: flag set at time 3 during a 5-tick sleep begun at time
2 — the sleep ends by time 4 and the loop stops with no further cycle. -/
theorem runloop_stop_within_one_tick_witness :
    2 + sleepLoop (fun u => decide (3 ≤ u)) 2 5 ≤ 4 ∧
    agentLoop (fun _ => .ok true) (fun u => decide (3 ≤ u)) 5 1 7
      (2 + sleepLoop (fun u => decide (3 ≤ u)) 2 5) = [.stopped] := by
  have h := runloop_stop_within_one_tick (fun u => decide (3 ≤ u)) 3 2 5
    (by intro s t hst hs; simp only [decide_eq_true_eq] at hs ⊢; omega)
    (by decide) (by decide) (by decide)
  exact ⟨h.1, h.2.2 (fun _ => .ok true) 0 7⟩

end N8nSpec
